import Mathlib

/-!
Verification development for the `made_members` membership-dashboard derivation
engine.  The Python sources are embedded shallowly:

* pandas DataFrames become lists of Lean structures (one structure per row
  shape);
* machine floats / Python numbers become `ℚ` (all monetary arithmetic in the
  program is small-scale rational arithmetic);
* Python values that may be `None` / absent become `Option`;
* code that can raise (KeyError on a missing mandatory key, TypeError /
  ValueError on an unparseable timestamp, ZeroDivisionError) returns `Option`,
  with `none` modelling the raised exception aborting the call;
* Python strings become Lean `String` (in this toolchain a `String` is a list
  of characters, matching Python's code-point semantics for the ASCII data
  involved here).

Each embedded definition cites the source file and lines it is translated
from.  The repository contains two parallel implementations of the activity
pipeline: the current package under `src/` and a legacy flat module
`data_processing.py`; both are embedded where a claim touches both.
-/

namespace MadeMembers

/-! ## String helpers

Python's `in` (substring test), `str.endswith` and `str.lower` are modelled
over the character list of a `String`. -/

/-- `charListBeginsWith pat l` is true iff `pat` is an initial segment of `l`. -/
def charListBeginsWith : List Char → List Char → Bool
  | [], _ => true
  | _ :: _, [] => false
  | a :: as, b :: bs => a == b && charListBeginsWith as bs

/-- `hasSubChars needle hay` models Python's `needle in hay` substring test. -/
def hasSubChars (needle : List Char) : List Char → Bool
  | [] => needle.isEmpty
  | c :: rest => charListBeginsWith needle (c :: rest) || hasSubChars needle rest

/-- Substring test on strings, Python's `needle in hay`. -/
def strHasSub (needle hay : String) : Bool :=
  hasSubChars needle.toList hay.toList

/-- Python's `hay.endswith(tail)`. -/
def strEndsWith (hay tail : String) : Bool :=
  charListBeginsWith tail.toList.reverse hay.toList.reverse

/-- Python's `s.lower()`, character-wise lowering (the data here is ASCII). -/
def lowerStr (s : String) : String :=
  String.mk (s.toList.map Char.toLower)

/-! ## Monetary normalization

The repository derives a normalized monthly value at three places; the two the
claims cite are embedded here (the third, legacy `data_processing.py`, appears
further below as `legacyMonthlyValue`). -/

/-- Divisor used by `calculate_mrr` (src/src/data/members.py lines 115-122):
`1 if unit == "month" else 0.25 if unit == "week" else 12 if unit == "year"
else 0`. -/
def mrrDivisor (unit : String) : ℚ :=
  if unit = "month" then 1
  else if unit = "week" then 1/4
  else if unit = "year" then 12
  else 0

/-- The `monthly_value` expression inside `calculate_mrr`
(src/src/data/members.py lines 115-122):
`price_cents / divisor / (interval_count or 1)`.
When the divisor is `0` (any interval unit outside week/month/year) the Python
division is a division by zero, which does not produce a number: depending on
the cell type it raises `ZeroDivisionError` or yields an IEEE infinity.  Either
way the computation has no rational value, modelled as `none`. -/
def monthlyValueMrr (priceCents : ℚ) (intervalUnit : String) (intervalCount : ℚ) :
    Option ℚ :=
  if mrrDivisor intervalUnit = 0 then none
  else some (priceCents / mrrDivisor intervalUnit /
    (if intervalCount = 0 then 1 else intervalCount))

/-- Multiplier used by `process_subscription_activities`
(src/src/data/activities.py lines 74-78): `1`, with `0.25` for `"week"` and
`1/12` for `"year"`. -/
def monthlyMultiplier (unit : String) : ℚ :=
  if unit = "week" then 1/4
  else if unit = "year" then 1/12
  else 1

/-- The `monthly_value` expression inside `process_subscription_activities`
(src/src/data/activities.py line 80):
`plan_price_cents * monthly_multiplier / (interval_count or 1)`. -/
def monthlyValueAct (priceCents : ℚ) (intervalUnit : String) (intervalCount : ℚ) :
    ℚ :=
  priceCents * monthlyMultiplier intervalUnit /
    (if intervalCount = 0 then 1 else intervalCount)

/-- C1: evaluation of monetary normalization at the two cited derivation
sites.  At the `calculate_mrr` site all three spec examples hold
(1200/year ↦ 100, 100/week ↦ 400, 100/month ↦ 100).  At the
`process_subscription_activities` site the yearly and monthly examples hold,
but the weekly one fails: the code multiplies the weekly price by `0.25`
instead of dividing by it, so price 100 with interval ("week", 1) maps to 25,
a quarter of the weekly price, instead of the claimed 400. -/
theorem c1_monthly_value_eval :
    monthlyValueMrr 1200 "year" 1 = some 100 ∧
    monthlyValueMrr 100 "week" 1 = some 400 ∧
    monthlyValueMrr 100 "month" 1 = some 100 ∧
    monthlyValueAct 1200 "year" 1 = 100 ∧
    monthlyValueAct 100 "month" 1 = 100 ∧
    monthlyValueAct 100 "week" 1 = 25 ∧ (25 : ℚ) ≠ 400 := by
  refine ⟨?_, ?_, ?_, ?_, ?_, ?_, by norm_num⟩ <;>
    simp [monthlyValueMrr, mrrDivisor, monthlyValueAct, monthlyMultiplier] <;>
    norm_num

/-- C5 counterexample: with the unrecognized interval unit "day", price 100 and
interval count 1, the `process_subscription_activities` site normalizes to 100
(the multiplier falls through to 1, treating the unit as monthly), not 0, and
the `calculate_mrr` site divides by zero (no value at all), not 0. -/
theorem c5_counterexample :
    monthlyValueAct 100 "day" 1 = 100 ∧ (100 : ℚ) ≠ 0 ∧
    monthlyValueMrr 100 "day" 1 = none ∧ monthlyValueMrr 100 "" 1 = none := by
  refine ⟨?_, by norm_num, ?_, ?_⟩ <;>
    simp [monthlyValueAct, monthlyMultiplier, monthlyValueMrr, mrrDivisor]

/-- C5 amended: for every price and nonzero interval count, an interval unit
outside {week, month, year} (including the empty string) makes
`process_subscription_activities` normalize to `price / count` (the unit falls
through to the monthly multiplier 1), while `calculate_mrr` divides by a zero
divisor, so that site produces no value (a raised `ZeroDivisionError` or an
IEEE infinity), never the claimed silent 0. -/
theorem c5_amended (price count : ℚ) (unit : String)
    (hu : unit ∉ (["week", "month", "year"] : List String)) (hc : count ≠ 0) :
    monthlyValueAct price unit count = price / count ∧
    monthlyValueMrr price unit count = none := by
  simp only [List.mem_cons, List.not_mem_nil, or_false, not_or] at hu
  obtain ⟨hw, hm, hy⟩ := hu
  constructor
  · simp [monthlyValueAct, monthlyMultiplier, hw, hy, hc]
  · simp [monthlyValueMrr, mrrDivisor, hw, hm, hy]

/-- Witness for `c5_amended` at price 100, unit "day", count 1. -/
theorem c5_amended_witness :
    ("day" ∉ (["week", "month", "year"] : List String)) ∧ (1 : ℚ) ≠ 0 ∧
    (monthlyValueAct 100 "day" 1 = 100 / 1 ∧
      monthlyValueMrr 100 "day" 1 = none) :=
  ⟨by decide, by norm_num, c5_amended 100 1 "day" (by decide) (by norm_num)⟩

/-- Multiplier used by the legacy `process_subscription_activities`
(src/data_processing.py lines 175-179): `1`, with `0.25` for week and `12` for
year. -/
def legacyMultiplier (unit : String) : ℚ :=
  if unit = "week" then 1/4
  else if unit = "year" then 12
  else 1

/-- The `monthly_value` expression of the legacy pipeline
(src/data_processing.py line 181):
`plan_price_cents / (monthly_multiplier * (interval_count or 1))`. -/
def legacyMonthlyValue (priceCents : ℚ) (intervalUnit : String)
    (intervalCount : ℚ) : ℚ :=
  priceCents / (legacyMultiplier intervalUnit *
    (if intervalCount = 0 then 1 else intervalCount))

/-! ## Raw records (external interface shapes)

Timestamps arrive as epoch values that may be absent (`null`), numeric, or —
the error case the spec discusses — a truthy non-numeric, unparseable value
such as a non-empty string. -/

/-- A raw timestamp field: `null` models an absent key or JSON null, `num n`
an epoch-seconds number, and `malformed` a truthy non-numeric unparseable
value (for example the string "abc"). -/
inductive TsVal where
  | null : TsVal
  | num : Int → TsVal
  | malformed : TsVal
deriving DecidableEq

/-- Raw coupon object: `code` is `none` when the key is absent or null. -/
structure CouponInfo where
  code : Option String
deriving DecidableEq

/-- Raw order nested under a member (fields read by `is_education_member` and
`calculate_recent_orders`). -/
structure RawOrder where
  totalCents : Option ℚ
  createdAt : Option Int
  status : Option String
  coupon : Option CouponInfo
deriving DecidableEq

/-- Raw plan object.  Each field holds the value of the key, with `none` for
an absent key or JSON null (the Python code reads them with `.get`, so the two
cases behave alike everywhere a claim looks). -/
structure PlanInfo where
  id : Option String
  name : Option String
  priceCents : Option ℚ
  intervalUnit : Option String
  intervalCount : Option ℚ
deriving DecidableEq

/-- The empty plan dict `{}` that `sub.get("plan", {})` substitutes. -/
def emptyPlan : PlanInfo := ⟨none, none, none, none, none⟩

/-- Raw subscription nested under a member. `id` is accessed with `sub["id"]`
(KeyError when absent, hence `Option`); the rest with `.get` defaults. -/
structure RawSub where
  id : Option String
  active : Option Bool
  autorenew : Option Bool
  plan : Option PlanInfo
  createdAt : TsVal
  expiresAt : TsVal
deriving DecidableEq

/-- Raw member record.  `id`, `email` and `fullName` are accessed with
`member[...]`, raising KeyError when absent, hence `Option` here. -/
structure RawMember where
  id : Option String
  email : Option String
  fullName : Option String
  totalSpendCents : Option ℚ
  subscriptions : List RawSub
  orders : List RawOrder
deriving DecidableEq

/-! ## Classification (src/src/utils/member_utils.py, identical copy in
src/utils.py) -/

/-- First order with the maximal `createdAt` key (missing key counts as 0).
This is `sorted(orders, key=..., reverse=True)[0]`: Python's sort is stable,
so among equal keys the earliest input element comes first. -/
def mostRecentOrder (orders : List RawOrder) : Option RawOrder :=
  orders.foldl
    (fun acc o =>
      match acc with
      | none => some o
      | some b => if o.createdAt.getD 0 > b.createdAt.getD 0 then some o else some b)
    none

/-- `is_education_member` (src/src/utils/member_utils.py lines 5-23): the most
recent order is free (`totalCents` default 0 equals 0) and carries a coupon
whose `code` equals exactly "Education". -/
def is_education_member (m : RawMember) : Bool :=
  match mostRecentOrder m.orders with
  | none => false
  | some o =>
      (o.totalCents.getD 0 == 0) &&
      (match o.coupon with
       | some c => c.code == some "Education"
       | none => false)

/-! ## Record flattening (src/src/data/members.py lines 8-56, identical copy in
src/data_processing.py lines 10-58) -/

/-- One row of the members table. -/
structure MemberRow where
  id : String
  email : String
  name : String
  total_spend_cents : ℚ
  is_education : Bool
deriving DecidableEq

/-- One row of the subscriptions table before timestamp conversion. -/
structure SubRowRaw where
  subscription_id : String
  member_id : String
  member_name : String
  member_email : String
  active : Bool
  auto_renew : Bool
  plan : String
  price_cents : ℚ
  interval_unit : String
  interval_count : ℚ
  created_at : TsVal
  expires_at : TsVal
  is_education : Bool
deriving DecidableEq

/-- One row of the subscriptions table after `pd.to_datetime(..., unit='s')`.
`monthly_value` is the column that `calculate_mrr` later writes into the
table: `none` models the column being absent (as it is in the output of
`process_members_data`). -/
structure SubRow where
  subscription_id : String
  member_id : String
  member_name : String
  member_email : String
  active : Bool
  auto_renew : Bool
  plan : String
  price_cents : ℚ
  interval_unit : String
  interval_count : ℚ
  created_at : Option Int
  expires_at : Option Int
  is_education : Bool
  monthly_value : Option ℚ
deriving DecidableEq

/-- Monadic traversal in the `Option` monad: the whole list maps, or the
first failure aborts the call (modelling an uncaught Python exception). -/
def optionMapM {α β : Type} (f : α → Option β) : List α → Option (List β)
  | [] => some []
  | a :: rest => do
    let b ← f a
    let bs ← optionMapM f rest
    pure (b :: bs)

/-- One entry of the members_df comprehension (src/src/data/members.py lines
11-20): `member["id"]`, `member["email"]`, `member["fullName"]` raise KeyError
when absent, aborting the whole call. -/
def processMember (m : RawMember) : Option MemberRow := do
  let i ← m.id
  let e ← m.email
  let n ← m.fullName
  pure ⟨i, e, n, m.totalSpendCents.getD 0, is_education_member m⟩

/-- One entry of the subscriptions loop (src/src/data/members.py lines 24-45).
`sub["id"]` and the three member keys raise KeyError when absent. -/
def buildSubRow (m : RawMember) (s : RawSub) : Option SubRowRaw := do
  let sid ← s.id
  let mid ← m.id
  let mname ← m.fullName
  let memail ← m.email
  pure
    { subscription_id := sid, member_id := mid, member_name := mname,
      member_email := memail,
      active := s.active.getD false,
      auto_renew := s.autorenew.getD false,
      plan := ((s.plan.getD emptyPlan).name).getD "Unknown",
      price_cents := ((s.plan.getD emptyPlan).priceCents).getD 0,
      interval_unit := ((s.plan.getD emptyPlan).intervalUnit).getD "",
      interval_count := ((s.plan.getD emptyPlan).intervalCount).getD 1,
      created_at := s.createdAt, expires_at := s.expiresAt,
      is_education := is_education_member m }

/-- `pd.to_datetime(value, unit='s')` on one cell: null becomes NaT (modelled
`none`), a number converts, and a non-numeric value raises ValueError,
aborting the whole batch. -/
def tsToDatetime : TsVal → Option (Option Int)
  | TsVal.null => some none
  | TsVal.num n => some (some n)
  | TsVal.malformed => none

/-- Timestamp conversion of one subscription row (src/src/data/members.py
lines 49-54 convert the whole `created_at` and `expires_at` columns; one
malformed cell raises and aborts the call). -/
def convertSubTimestamps (s : SubRowRaw) : Option SubRow := do
  let c ← tsToDatetime s.created_at
  let e ← tsToDatetime s.expires_at
  pure
    { subscription_id := s.subscription_id, member_id := s.member_id,
      member_name := s.member_name, member_email := s.member_email,
      active := s.active, auto_renew := s.auto_renew, plan := s.plan,
      price_cents := s.price_cents, interval_unit := s.interval_unit,
      interval_count := s.interval_count, created_at := c, expires_at := e,
      is_education := s.is_education, monthly_value := none }

/-- `process_members_data` (src/src/data/members.py lines 8-56): build the
members table, flatten the nested subscriptions, then convert the timestamp
columns.  `none` models the call raising, producing no output tables. -/
def process_members_data (ms : List RawMember) :
    Option (List MemberRow × List SubRow) := do
  let mrows ← optionMapM processMember ms
  let nested ← optionMapM (fun m => optionMapM (buildSubRow m) m.subscriptions) ms
  let subRows ← optionMapM convertSubTimestamps nested.flatten
  pure (mrows, subRows)

/-! ## Aggregate calculator `calculate_mrr` (src/src/data/members.py lines
109-149) -/

/-- `drop_duplicates(key)`: keep the first row for each key value. -/
def dedupBy {α β : Type} [DecidableEq β] (key : α → β) : List α → List α
  | [] => []
  | a :: rest => a :: dedupBy key (rest.filter (fun b => key b ≠ key a))
termination_by l => l.length
decreasing_by
  exact Nat.lt_succ_of_le (List.length_filter_le _ _)

/-- The column write `subs_df["monthly_value"] = subs_df.apply(...)` on one
row (src/src/data/members.py lines 115-122); `none` when the row's division
has no value (unknown interval unit, divisor 0). -/
def setMonthlyValue (s : SubRow) : Option SubRow :=
  (monthlyValueMrr s.price_cents s.interval_unit s.interval_count).map
    (fun v => { s with monthly_value := some v })

/-- `calculate_mrr` (src/src/data/members.py lines 109-149).  The result is
the caller's table as the call leaves it (the function mutates `subs_df` by
writing the `monthly_value` column) together with the returned tuple
`(current_mrr, paying_members_count, active_count, education_count)`.  The
`is_education` column always exists in tables produced by
`process_members_data`, so the embedded code takes that branch. -/
def calculate_mrr (subs : List SubRow) :
    Option (List SubRow × ℚ × ℕ × ℕ × ℕ) :=
  if subs.isEmpty then some (subs, 0, 0, 0, 0)
  else do
    let subs2 ← optionMapM setMonthlyValue subs
    let mrr_subs := subs2.filter (fun s => s.active && !s.is_education)
    let unique_subs := dedupBy (fun s => s.subscription_id) mrr_subs
    let current_mrr := ((unique_subs.map (fun s => s.monthly_value.getD 0)).sum) / 100
    let paying_members_count := unique_subs.length
    let active_members := subs2.filter (fun s => s.active)
    let active_count := (dedupBy (fun s => s.member_id) active_members).length
    let education_members := subs2.filter (fun s => s.active && s.is_education)
    let education_count := (dedupBy (fun s => s.member_id) education_members).length
    pure (subs2, current_mrr, paying_members_count, active_count, education_count)

/-! ## Claims C10 and C9 -/

/-- If `f a = none` for some element of the list, `optionMapM f` fails. -/
theorem optionMapM_eq_none {α β : Type} (f : α → Option β) :
    ∀ (l : List α) (a : α), a ∈ l → f a = none → optionMapM f l = none := by
  intro l
  induction l with
  | nil => intro a ha; cases ha
  | cons x xs ih =>
    intro a ha hfa
    rcases List.mem_cons.mp ha with h | h
    · subst h
      simp [optionMapM, hfa]
    · rcases hx : f x with _ | v
      · simp [optionMapM, hx]
      · simp [optionMapM, hx, ih a h hfa]

/-- C10: a raw member missing any of the mandatory keys `id`, `email`,
`fullName` makes `process_members_data` raise (KeyError), so the whole batch
produces no output tables at all, including its well-formed records. -/
theorem c10_mandatory_member_keys (ms : List RawMember)
    (h : ∃ m ∈ ms, m.id = none ∨ m.email = none ∨ m.fullName = none) :
    process_members_data ms = none := by
  obtain ⟨m, hm, hkey⟩ := h
  have hpm : processMember m = none := by
    obtain ⟨mid, mem, mfn, msp, msub, mord⟩ := m
    rcases mid with _ | i <;> rcases mem with _ | e <;> rcases mfn with _ | n <;>
      simp_all [processMember]
  have : optionMapM processMember ms = none := optionMapM_eq_none _ ms m hm hpm
  simp [process_members_data, this]

/-- Witness for `c10_mandatory_member_keys`: a batch holding one well-formed
member and one member lacking `email` yields no output at all. -/
theorem c10_mandatory_member_keys_witness :
    (∃ m ∈ ([⟨some "m1", some "a@b.c", some "A", some 0, [], []⟩,
             ⟨some "m2", none, some "B", some 0, [], []⟩] : List RawMember),
        m.id = none ∨ m.email = none ∨ m.fullName = none) ∧
    process_members_data
        [⟨some "m1", some "a@b.c", some "A", some 0, [], []⟩,
         ⟨some "m2", none, some "B", some 0, [], []⟩] = none :=
  ⟨⟨⟨some "m2", none, some "B", some 0, [], []⟩, by simp, by simp⟩,
    c10_mandatory_member_keys _
      ⟨⟨some "m2", none, some "B", some 0, [], []⟩, by simp, by simp⟩⟩

/-- A concrete one-row subscription table whose `monthly_value` column is
absent, as `process_members_data` produces it. -/
def c9sub : SubRow :=
  { subscription_id := "s1", member_id := "m1", member_name := "A",
    member_email := "a@b.c", active := true, auto_renew := true,
    plan := "Monthly", price_cents := 1000, interval_unit := "month",
    interval_count := 1, created_at := some 0, expires_at := none,
    is_education := false, monthly_value := none }

/-- C9 counterexample: `calculate_mrr` does not leave the caller's table
unchanged — on a one-row table without a `monthly_value` column the call
returns with the row's `monthly_value` written (the Python code assigns
`subs_df["monthly_value"] = ...` on the caller's DataFrame), so the resulting
table differs from the input. -/
theorem c9_counterexample :
    (calculate_mrr [c9sub]).map (fun out => out.1) =
      some [{ c9sub with monthly_value := some 1000 }] ∧
    ({ c9sub with monthly_value := some 1000 } : SubRow) ≠ c9sub := by
  constructor
  · simp [calculate_mrr, optionMapM, setMonthlyValue, monthlyValueMrr,
      mrrDivisor, c9sub]
  · simp [c9sub]

/-- Success of `optionMapM setMonthlyValue` determines the written table: each
row is the input row with its `monthly_value` column set to the row's
normalized monthly value. -/
theorem optionMapM_setMonthlyValue (l : List SubRow) :
    ∀ l2, optionMapM setMonthlyValue l = some l2 →
      l2 = l.map (fun s =>
        { s with monthly_value :=
            monthlyValueMrr s.price_cents s.interval_unit s.interval_count }) := by
  induction l with
  | nil =>
    intro l2 h
    simp only [optionMapM] at h
    simp [← Option.some_inj.mp h]
  | cons a rest ih =>
    intro l2 h
    simp only [optionMapM, Option.bind_eq_bind] at h
    rcases ha : setMonthlyValue a with _ | b <;> rw [ha] at h
    · simp at h
    · rcases hr : optionMapM setMonthlyValue rest with _ | bs <;> rw [hr] at h
      · simp at h
      · simp only [Option.some_bind, Option.pure_def, Option.some_inj] at h
        obtain ⟨v, hv, hb⟩ := Option.map_eq_some'.mp ha
        subst h
        rw [List.map_cons, ← ih bs hr, ← hb, hv]

/-- C9 amended: `calculate_mrr` is not pure in its input table — whenever the
call returns, the caller's table is the input with the `monthly_value` column
written into every row (on empty input the table is returned untouched); no
other column or row is changed. -/
theorem c9_amended (subs : List SubRow) (out : List SubRow × ℚ × ℕ × ℕ × ℕ)
    (h : calculate_mrr subs = some out) :
    out.1 = subs.map (fun s =>
      { s with monthly_value :=
          monthlyValueMrr s.price_cents s.interval_unit s.interval_count }) := by
  by_cases he : subs.isEmpty
  · have : subs = [] := List.isEmpty_iff.mp he
    subst this
    simp only [calculate_mrr, List.isEmpty_nil, if_true, Option.some_inj] at h
    rw [← h]
    simp
  · have he' : subs.isEmpty = false := by
      simpa using he
    simp only [calculate_mrr, he', Bool.false_eq_true, if_false,
      Option.bind_eq_bind] at h
    rcases hm : optionMapM setMonthlyValue subs with _ | subs2 <;> rw [hm] at h
    · simp at h
    · simp only [Option.some_bind, Option.pure_def, Option.some_inj] at h
      rw [← h]
      exact optionMapM_setMonthlyValue subs subs2 hm

/-- Witness for `c9_amended` on the concrete one-row table `[c9sub]`. -/
theorem c9_amended_witness :
    calculate_mrr [c9sub] =
      some ([{ c9sub with monthly_value := some 1000 }], 10, 1, 1, 0) ∧
    ([{ c9sub with monthly_value := some 1000 }], (10 : ℚ), 1, 1, 0).1 =
      [c9sub].map (fun s =>
        { s with monthly_value :=
            monthlyValueMrr s.price_cents s.interval_unit s.interval_count }) := by
  have h : calculate_mrr [c9sub] =
      some ([{ c9sub with monthly_value := some 1000 }], 10, 1, 1, 0) := by
    simp [calculate_mrr, optionMapM, setMonthlyValue, monthlyValueMrr,
      mrrDivisor, c9sub, dedupBy]
    norm_num
  exact ⟨h, c9_amended [c9sub] _ h⟩

/-! ## Activity normalization (src/src/data/activities.py lines 8-170) -/

/-- Raw order nested under an activity's subscription (only the coupon is
read by the education check). -/
structure ActOrderInfo where
  coupon : Option CouponInfo
deriving DecidableEq

/-- Raw subscription object attached to an activity.  `none` at the use sites
models an absent key, a JSON null, or an empty dict (all falsy in Python). -/
structure SubscriptionInfo where
  id : Option String
  plan : Option PlanInfo
  orders : List ActOrderInfo
deriving DecidableEq

/-- Raw activity record.  `type` is modelled as a string: the API always
supplies it, and every claim about activities speaks of "the activity type
string".  `previousPlan` holds the plan snapshot inside `previousData` when
present (read only by the legacy pipeline). -/
structure RawActivity where
  id : Option String
  type : String
  createdAt : TsVal
  memberId : Option String
  memberName : Option String
  memberEmail : Option String
  subscription : Option SubscriptionInfo
  previousPlan : Option PlanInfo
deriving DecidableEq

/-- The email suffix tuple of the education fallback check
(src/src/data/activities.py line 53). -/
def eduSuffixes : List String :=
  [".edu", "@meca.edu", "@maine.edu", "@usm.maine.edu", "@mcad.edu"]

/-- Education classification of one activity (src/src/data/activities.py
lines 49-62): by lowercased email suffix, or by a subscription order coupon
whose code contains "education" case-insensitively. -/
def activityIsEducation (a : RawActivity) : Bool :=
  let byEmail :=
    match a.memberEmail with
    | some e => e ≠ "" && eduSuffixes.any (fun suf => strEndsWith (lowerStr e) suf)
    | none => false
  let byCoupon :=
    match a.subscription with
    | some si =>
        si.orders.any (fun o =>
          match o.coupon with
          | some c =>
              match c.code with
              | some code => code ≠ "" && strHasSub "education" (lowerStr code)
              | none => false
          | none => false)
    | none => false
  byEmail || byCoupon

/-- One row of the processed activities table (the record dict built at
src/src/data/activities.py lines 135-157).  The five plan columns and
`monthly_value` are only present when the activity carried subscription data;
`none` in `monthly_value` models the absent column cell. -/
structure ActivityRecord where
  id : Option String
  type : String
  category : String
  created_at : Option Int
  member_id : Option String
  member_name : Option String
  member_email : Option String
  subscription_id : Option String
  is_education : Bool
  mrr_impact_cents : ℚ
  mrr_impact_dollars : ℚ
  plan_name : Option String
  plan_price_cents : Option ℚ
  interval_unit : Option String
  interval_count : Option ℚ
  monthly_value : Option ℚ
deriving DecidableEq

/-- Category for an education activity with plan data
(src/src/data/activities.py lines 86-94). -/
def eduCategory (aType : String) : String :=
  if aType = "new_subscription" || aType = "new_order" then "Education members"
  else if aType = "renewal" then "Education renewals"
  else if aType = "subscription_deactivated" then "Education cancellations"
  else "Education changes"

/-- The four Education category variants. -/
def eduCategories : List String :=
  ["Education members", "Education renewals", "Education cancellations",
   "Education changes"]

/-- Impact and category for a non-education activity with plan data
(src/src/data/activities.py lines 96-124); anything unmatched keeps the
defaults `(0, "Other")`. -/
def nonEduImpactCategory (aType : String) (mv : ℚ) : ℚ × String :=
  if aType = "new_subscription" || aType = "new_order" then (mv, "New members")
  else if aType = "subscription_reactivated" then (mv, "Reactivations")
  else if aType = "upgrade" then (mv, "Upgrades")
  else if aType = "downgrade" then (-mv, "Downgrades")
  else if aType = "subscription_deleted" || aType = "subscription_deactivated" then
    (-mv, "Cancellations")
  else if aType = "renewal_payment_failed" || strHasSub "renewal_failed" aType ||
      strHasSub "payment_failed" aType then
    (-mv, "Failed payments")
  else if aType = "renewal" then (0, "Renewals")
  else (0, "Other")

/-- Category for an activity without subscription data
(src/src/data/activities.py lines 126-132); the default is "Other". -/
def noSubCategory (aType : String) : String :=
  if aType = "free_signup" then "Free signups"
  else if strHasSub "team_member" aType then "Team member changes"
  else if strHasSub "auto_renew" aType then "Subscription changes"
  else "Other"

/-- `datetime.fromtimestamp(created_at) if created_at else None`
(src/src/data/activities.py line 139): a falsy value (null or the number 0)
becomes `None`; a truthy number converts; a truthy non-numeric value raises
TypeError, aborting the whole call. -/
def activityTs : TsVal → Option (Option Int)
  | TsVal.null => some none
  | TsVal.num n => if n = 0 then some none else some (some n)
  | TsVal.malformed => none

/-- Processing of one activity (the loop body,
src/src/data/activities.py lines 27-159).  `none` models the iteration
raising and thereby aborting the whole call. -/
def processActivity (a : RawActivity) : Option ActivityRecord := do
  let createdAt ← activityTs a.createdAt
  let isEdu := activityIsEducation a
  match a.subscription with
  | none =>
      pure
        { id := a.id, type := a.type, category := noSubCategory a.type,
          created_at := createdAt, member_id := a.memberId,
          member_name := a.memberName, member_email := a.memberEmail,
          subscription_id := none, is_education := isEdu,
          mrr_impact_cents := 0, mrr_impact_dollars := 0,
          plan_name := none, plan_price_cents := none, interval_unit := none,
          interval_count := none, monthly_value := none }
  | some si =>
      let plan := si.plan.getD emptyPlan
      match plan.priceCents, plan.intervalUnit with
      | some price, some unit =>
          let mv := monthlyValueAct price unit (plan.intervalCount.getD 0)
          let ic : ℚ × String :=
            if isEdu then (0, eduCategory a.type)
            else nonEduImpactCategory a.type mv
          pure
            { id := a.id, type := a.type, category := ic.2,
              created_at := createdAt, member_id := a.memberId,
              member_name := a.memberName, member_email := a.memberEmail,
              subscription_id := si.id, is_education := isEdu,
              mrr_impact_cents := ic.1,
              mrr_impact_dollars := if ic.1 = 0 then 0 else ic.1 / 100,
              plan_name := plan.name, plan_price_cents := some price,
              interval_unit := some unit, interval_count := plan.intervalCount,
              monthly_value := some mv }
      | _, _ =>
          pure
            { id := a.id, type := a.type, category := "Other",
              created_at := createdAt, member_id := a.memberId,
              member_name := a.memberName, member_email := a.memberEmail,
              subscription_id := si.id, is_education := isEdu,
              mrr_impact_cents := 0, mrr_impact_dollars := 0,
              plan_name := plan.name, plan_price_cents := plan.priceCents,
              interval_unit := plan.intervalUnit,
              interval_count := plan.intervalCount, monthly_value := some 0 }

/-- `process_subscription_activities` (src/src/data/activities.py lines
8-170): every input activity yields exactly one record; a raising iteration
aborts the whole call (`none`). -/
def process_subscription_activities (acts : List RawActivity) :
    Option (List ActivityRecord) :=
  optionMapM processActivity acts

/-! ## Legacy activity normalization (src/data_processing.py lines 136-264) -/

/-- One row of the legacy processed activities table
(src/data_processing.py lines 237-253). -/
structure LegacyActivityRecord where
  id : Option String
  type : String
  category : String
  created_at : Option Int
  member_id : Option String
  member_name : Option String
  subscription_id : Option String
  plan_name : String
  plan_price_cents : ℚ
  monthly_value : ℚ
  mrr_impact_cents : ℚ
  mrr_impact_dollars : ℚ
  old_plan_id : Option String
  old_plan_price_cents : ℚ
  old_monthly_value : ℚ
deriving DecidableEq

/-- Legacy impact/category table (src/data_processing.py lines 205-234). -/
def legacyImpactCategory (aType : String) (mv oldMv : ℚ) : ℚ × String :=
  if aType = "new_subscription" then (mv, "New Members")
  else if aType = "subscription_reactivated" then (mv, "Reactivations")
  else if aType = "upgrade" then (mv - oldMv, "Upgrades")
  else if aType = "downgrade" then (-(oldMv - mv), "Downgrades")
  else if aType = "subscription_deleted" || aType = "subscription_deactivated" then
    (-mv, "Cancellations")
  else if aType = "renewal_payment_failed" then (-mv, "Failed Payments")
  else (0, "Other")

/-- Legacy processing of one activity (src/data_processing.py lines 155-253):
an activity without subscription data is skipped (`continue`, modelled by the
empty list), otherwise exactly one record is emitted; `none` models a raising
iteration aborting the whole call. -/
def legacyProcessActivity (a : RawActivity) : Option (List LegacyActivityRecord) :=
  match a.subscription with
  | none => some []
  | some si => do
      let createdAt ← activityTs a.createdAt
      let plan := si.plan.getD emptyPlan
      let price := plan.priceCents.getD 0
      let unit := plan.intervalUnit.getD "month"
      let mv := legacyMonthlyValue price unit (plan.intervalCount.getD 0)
      let old : Option String × ℚ × ℚ :=
        if a.type = "upgrade" || a.type = "downgrade" then
          match a.previousPlan with
          | some op =>
              (op.id, op.priceCents.getD 0,
               legacyMonthlyValue (op.priceCents.getD 0)
                 (op.intervalUnit.getD "month") (op.intervalCount.getD 0))
          | none => (none, 0, 0)
        else (none, 0, 0)
      let ic := legacyImpactCategory a.type mv old.2.2
      pure
        [{ id := a.id, type := a.type, category := ic.2,
           created_at := createdAt, member_id := a.memberId,
           member_name := a.memberName, subscription_id := si.id,
           plan_name := plan.name.getD "Unknown", plan_price_cents := price,
           monthly_value := mv, mrr_impact_cents := ic.1,
           mrr_impact_dollars := if ic.1 = 0 then 0 else ic.1 / 100,
           old_plan_id := old.1, old_plan_price_cents := old.2.1,
           old_monthly_value := old.2.2 }]

/-- Legacy `process_subscription_activities`
(src/data_processing.py lines 136-264). -/
def legacy_process_subscription_activities (acts : List RawActivity) :
    Option (List LegacyActivityRecord) :=
  (optionMapM legacyProcessActivity acts).map List.flatten

/-! ## Claims C6, C7, C8 -/

/-- The education category helper always lands in the four Education
variants. -/
theorem eduCategory_mem (t : String) : eduCategory t ∈ eduCategories := by
  simp only [eduCategory, eduCategories]
  split_ifs <;> simp

/-- The no-subscription category helper always lands in the fixed four-element
set. -/
theorem noSubCategory_mem (t : String) :
    noSubCategory t ∈
      ["Free signups", "Team member changes", "Subscription changes", "Other"] := by
  simp only [noSubCategory]
  split_ifs <;> simp

/-- An education activity that carries no subscription data but is classified
education by its email domain. -/
def c6raw : RawActivity :=
  { id := some "a1", type := "free_signup", createdAt := TsVal.num 1700000000,
    memberId := some "m1", memberName := some "N",
    memberEmail := some "n@mcad.edu", subscription := none,
    previousPlan := none }

/-- C6 counterexample: the raw activity `c6raw` is classified education (its
email ends in ".edu"), yet its emitted row's category is "Free signups", not
an Education variant — the Education categories are only assigned when the
activity carries subscription data with a non-null plan price and interval
unit. -/
theorem c6_counterexample :
    (processActivity c6raw).map
        (fun r => (r.is_education, r.category, r.mrr_impact_cents)) =
      some (true, "Free signups", 0) ∧
    "Free signups" ∉ eduCategories := by
  constructor
  · simp [processActivity, c6raw, activityTs, activityIsEducation,
      eduSuffixes, strEndsWith, lowerStr, noSubCategory, charListBeginsWith]
  · decide

/-- C6 amended: every emitted row classified education has `mrr_impact` 0 (in
cents and in dollars) regardless of the activity type; its category is an
Education variant whenever the activity carries subscription data with a
non-null plan price and interval unit (education rows without such plan data
keep the non-revenue categories of the no-plan paths instead). -/
theorem c6_amended (a : RawActivity) (r : ActivityRecord)
    (hp : processActivity a = some r) (he : r.is_education = true) :
    r.mrr_impact_cents = 0 ∧ r.mrr_impact_dollars = 0 ∧
    (∀ si, a.subscription = some si →
      ((si.plan.getD emptyPlan).priceCents).isSome = true →
      ((si.plan.getD emptyPlan).intervalUnit).isSome = true →
      r.category ∈ eduCategories) := by
  simp only [processActivity, Option.bind_eq_bind] at hp
  rcases hts : activityTs a.createdAt with _ | ca <;> rw [hts] at hp
  · simp at hp
  · simp only [Option.some_bind] at hp
    split at hp
    · rename_i hsub
      simp only [Option.pure_def, Option.some_inj] at hp
      subst hp
      refine ⟨rfl, rfl, ?_⟩
      intro si h
      rw [hsub] at h
      exact absurd h (by simp)
    · rename_i si hsub
      split at hp
      · rename_i price unit hpc hiu
        simp only [Option.pure_def, Option.some_inj] at hp
        subst hp
        have hedu : activityIsEducation a = true := by simpa using he
        refine ⟨by simp [hedu], by simp [hedu], ?_⟩
        intro si2 h2 hp2 hu2
        simpa [hedu] using eduCategory_mem a.type
      · rename_i hno
        simp only [Option.pure_def, Option.some_inj] at hp
        subst hp
        refine ⟨rfl, rfl, ?_⟩
        intro si2 h2 hp2 hu2
        rw [hsub, Option.some_inj] at h2
        subst h2
        obtain ⟨price, hprice⟩ := Option.isSome_iff_exists.mp hp2
        obtain ⟨unit, hunit⟩ := Option.isSome_iff_exists.mp hu2
        exact (hno price unit hprice hunit).elim

/-- An education activity carrying subscription data with plan price and
interval unit present. -/
def c6wIn : RawActivity :=
  { id := some "a3", type := "new_subscription", createdAt := TsVal.num 1700000100,
    memberId := some "m3", memberName := some "E",
    memberEmail := some "e@maine.edu",
    subscription := some
      ⟨some "s3",
       some ⟨some "p1", some "Monthly", some 1000, some "month", some 1⟩, []⟩,
    previousPlan := none }

/-- The row `processActivity` emits for `c6wIn`. -/
def c6wOut : ActivityRecord :=
  { id := some "a3", type := "new_subscription", category := "Education members",
    created_at := some 1700000100, member_id := some "m3", member_name := some "E",
    member_email := some "e@maine.edu", subscription_id := some "s3",
    is_education := true, mrr_impact_cents := 0, mrr_impact_dollars := 0,
    plan_name := some "Monthly", plan_price_cents := some 1000,
    interval_unit := some "month", interval_count := some 1,
    monthly_value := some 1000 }

/-- Witness for `c6_amended` on the concrete education activity `c6wIn`. -/
theorem c6_amended_witness :
    processActivity c6wIn = some c6wOut ∧ c6wOut.is_education = true ∧
    (c6wOut.mrr_impact_cents = 0 ∧ c6wOut.mrr_impact_dollars = 0 ∧
      (∀ si, c6wIn.subscription = some si →
        ((si.plan.getD emptyPlan).priceCents).isSome = true →
        ((si.plan.getD emptyPlan).intervalUnit).isSome = true →
        c6wOut.category ∈ eduCategories)) := by
  have hp : processActivity c6wIn = some c6wOut := by
    have hedu : activityIsEducation c6wIn = true := by decide
    simp only [c6wIn] at hedu
    simp [processActivity, c6wIn, c6wOut, activityTs, hedu, eduCategory,
      monthlyValueAct, monthlyMultiplier, emptyPlan]
  exact ⟨hp, rfl, c6_amended c6wIn c6wOut hp rfl⟩

/-- An activity without subscription data (and a non-education member). -/
def c7raw : RawActivity :=
  { id := some "a2", type := "free_signup", createdAt := TsVal.num 1700000500,
    memberId := some "m2", memberName := some "M",
    memberEmail := some "m@example.com", subscription := none,
    previousPlan := none }

/-- C7 counterexample: at the legacy `data_processing.py` site (cited by the
claim), an activity lacking subscription data is silently dropped — the
one-activity batch `[c7raw]` produces an empty output, so the record is not
emitted at all. -/
theorem c7_counterexample :
    legacy_process_subscription_activities [c7raw] = some [] ∧
    [c7raw].length = 1 := by
  constructor
  · simp [legacy_process_subscription_activities, optionMapM,
      legacyProcessActivity, c7raw]
  · rfl

/-- C7 amended: an activity lacking subscription data is dropped by the legacy
`data_processing.py` normalization, while the current
`src/src/data/activities.py` normalization emits a row for it (whenever its
timestamp is well-formed, which is the only way any record escapes the
output), with zero monetary impact and a category drawn from the fixed set
{Free signups, Team member changes, Subscription changes, Other}. -/
theorem c7_amended (a : RawActivity) (h1 : a.subscription = none) :
    legacyProcessActivity a = some [] ∧
    (a.createdAt ≠ TsVal.malformed →
      ∃ r, processActivity a = some r ∧ r.mrr_impact_cents = 0 ∧
        r.mrr_impact_dollars = 0 ∧ r.subscription_id = none ∧
        r.category ∈
          ["Free signups", "Team member changes", "Subscription changes",
           "Other"]) := by
  constructor
  · simp [legacyProcessActivity, h1]
  · intro hmal
    obtain ⟨ca, hca⟩ : ∃ ca, activityTs a.createdAt = some ca := by
      rcases hc : a.createdAt with _ | n | _
      · exact ⟨none, rfl⟩
      · by_cases hn : n = 0
        · exact ⟨none, by simp [activityTs, hn]⟩
        · exact ⟨some n, by simp [activityTs, hn]⟩
      · exact absurd hc hmal
    refine ⟨{ id := a.id, type := a.type, category := noSubCategory a.type,
              created_at := ca, member_id := a.memberId,
              member_name := a.memberName, member_email := a.memberEmail,
              subscription_id := none, is_education := activityIsEducation a,
              mrr_impact_cents := 0, mrr_impact_dollars := 0, plan_name := none,
              plan_price_cents := none, interval_unit := none,
              interval_count := none, monthly_value := none },
      ?_, rfl, rfl, rfl, noSubCategory_mem a.type⟩
    simp only [processActivity, Option.bind_eq_bind, hca, Option.some_bind, h1]
    rfl

/-- Witness for `c7_amended` on the concrete no-subscription activity
`c7raw`. -/
theorem c7_amended_witness :
    c7raw.subscription = none ∧
    (legacyProcessActivity c7raw = some [] ∧
      (c7raw.createdAt ≠ TsVal.malformed →
        ∃ r, processActivity c7raw = some r ∧ r.mrr_impact_cents = 0 ∧
          r.mrr_impact_dollars = 0 ∧ r.subscription_id = none ∧
          r.category ∈
            ["Free signups", "Team member changes", "Subscription changes",
             "Other"])) :=
  ⟨rfl, c7_amended c7raw rfl⟩

/-- A well-formed activity. -/
def c8good : RawActivity :=
  { id := some "g", type := "free_signup", createdAt := TsVal.num 1700001000,
    memberId := some "mg", memberName := some "G",
    memberEmail := some "g@example.com", subscription := none,
    previousPlan := none }

/-- An activity whose `createdAt` is a truthy non-numeric, unparseable
value. -/
def c8bad : RawActivity :=
  { id := some "b", type := "free_signup", createdAt := TsVal.malformed,
    memberId := some "mb", memberName := some "B",
    memberEmail := some "b@example.com", subscription := none,
    previousPlan := none }

/-- A member whose only subscription has a malformed `createdAt`. -/
def c8member : RawMember :=
  { id := some "m9", email := some "x@y.z", fullName := some "X",
    totalSpendCents := some 0,
    subscriptions := [⟨some "s9", some true, some true, none,
      TsVal.malformed, TsVal.null⟩],
    orders := [] }

/-- C8 counterexample: one malformed timestamp aborts the whole batch rather
than skipping the one record.  The batch `[c8good, c8bad]` produces no output
at all (the well-formed `c8good`, which alone processes fine, is lost), and a
member batch whose one subscription row has a malformed timestamp likewise
produces no output tables. -/
theorem c8_counterexample :
    process_subscription_activities [c8good, c8bad] = none ∧
    processActivity c8good ≠ none ∧
    process_members_data [c8member] = none := by
  refine ⟨?_, ?_, ?_⟩
  · simp [process_subscription_activities, optionMapM, processActivity,
      c8good, c8bad, activityTs]
  · simp [processActivity, c8good, activityTs]
  · simp [process_members_data, optionMapM, processMember, buildSubRow,
      convertSubTimestamps, tsToDatetime, c8member, is_education_member,
      mostRecentOrder]

/-- Success of `optionMapM` maps each input element to some output element. -/
theorem optionMapM_mem {α β : Type} (f : α → Option β) :
    ∀ (l : List α) (l2 : List β), optionMapM f l = some l2 →
      ∀ a ∈ l, ∃ b, f a = some b ∧ b ∈ l2 := by
  intro l
  induction l with
  | nil => intro l2 h a ha; cases ha
  | cons x xs ih =>
    intro l2 h a ha
    simp only [optionMapM, Option.bind_eq_bind] at h
    rcases hx : f x with _ | b <;> rw [hx] at h
    · simp at h
    · rcases hr : optionMapM f xs with _ | bs <;> rw [hr] at h
      · simp at h
      · simp only [Option.some_bind, Option.pure_def, Option.some_inj] at h
        subst h
        rcases List.mem_cons.mp ha with h | h
        · subst h
          exact ⟨b, hx, List.mem_cons_self _ _⟩
        · obtain ⟨b2, hb2, hb2mem⟩ := ih bs hr a h
          exact ⟨b2, hb2, List.mem_cons_of_mem _ hb2mem⟩

/-- A successfully built subscription row carries the raw subscription's
timestamps unchanged. -/
theorem buildSubRow_timestamps (m : RawMember) (s : RawSub) (row : SubRowRaw)
    (h : buildSubRow m s = some row) :
    row.created_at = s.createdAt ∧ row.expires_at = s.expiresAt := by
  rcases hsid : s.id with _ | sid <;> rcases hmid : m.id with _ | mid <;>
    rcases hmn : m.fullName with _ | mn <;> rcases hme : m.email with _ | me <;>
    simp_all [buildSubRow]
  exact ⟨by rw [← h], by rw [← h]⟩

/-- A subscription row with a malformed timestamp in either column makes the
column conversion raise. -/
theorem convertSubTimestamps_malformed (row : SubRowRaw)
    (h : row.created_at = TsVal.malformed ∨ row.expires_at = TsVal.malformed) :
    convertSubTimestamps row = none := by
  rcases h with h | h
  · simp [convertSubTimestamps, h, tsToDatetime]
  · rcases hc : row.created_at with _ | n | _ <;>
      simp [convertSubTimestamps, hc, h, tsToDatetime]

/-- C8 amended: a malformed (truthy non-numeric, unparseable) timestamp is not
a per-record skip — it raises and aborts the whole batch.  Any activity batch
holding one activity with a malformed `createdAt` yields no output, and any
member batch holding one subscription with a malformed `createdAt` or
`expiresAt` yields no output tables. -/
theorem c8_amended :
    (∀ batch : List RawActivity,
      (∃ a ∈ batch, a.createdAt = TsVal.malformed) →
      process_subscription_activities batch = none) ∧
    (∀ ms : List RawMember,
      (∃ m ∈ ms, ∃ s ∈ m.subscriptions,
        s.createdAt = TsVal.malformed ∨ s.expiresAt = TsVal.malformed) →
      process_members_data ms = none) := by
  constructor
  · rintro batch ⟨a, ha, hmal⟩
    have hnone : processActivity a = none := by
      simp [processActivity, hmal, activityTs]
    exact optionMapM_eq_none _ _ _ ha hnone
  · rintro ms ⟨m, hm, s, hs, hts⟩
    simp only [process_members_data, Option.bind_eq_bind]
    rcases h1 : optionMapM processMember ms with _ | mrows
    · simp
    · rcases h2 : optionMapM
          (fun m => optionMapM (buildSubRow m) m.subscriptions) ms with _ | nested
      · simp
      · obtain ⟨rows, hrows, hmemn⟩ := optionMapM_mem _ ms nested h2 m hm
        obtain ⟨row, hrow, hrmem⟩ := optionMapM_mem _ _ rows hrows s hs
        have hflat : row ∈ nested.flatten :=
          List.mem_flatten.mpr ⟨rows, hmemn, hrmem⟩
        have hconv : convertSubTimestamps row = none := by
          apply convertSubTimestamps_malformed
          obtain ⟨hc, he⟩ := buildSubRow_timestamps m s row hrow
          rcases hts with h | h
          · exact Or.inl (by rw [hc, h])
          · exact Or.inr (by rw [he, h])
        have hlast : optionMapM convertSubTimestamps nested.flatten = none :=
          optionMapM_eq_none _ _ _ hflat hconv
        simp [hlast]

/-- Witness for `c8_amended`: the one-activity batch `[c8bad]` and the
one-member batch `[c8member]`. -/
theorem c8_amended_witness :
    (∃ a ∈ [c8bad], a.createdAt = TsVal.malformed) ∧
    process_subscription_activities [c8bad] = none ∧
    (∃ m ∈ [c8member], ∃ s ∈ m.subscriptions,
      s.createdAt = TsVal.malformed ∨ s.expiresAt = TsVal.malformed) ∧
    process_members_data [c8member] = none :=
  ⟨⟨c8bad, by simp, rfl⟩,
   c8_amended.1 [c8bad] ⟨c8bad, by simp, rfl⟩,
   ⟨c8member, by simp, ⟨some "s9", some true, some true, none,
      TsVal.malformed, TsVal.null⟩, by simp [c8member], Or.inl rfl⟩,
   c8_amended.2 [c8member] ⟨c8member, by simp,
     ⟨some "s9", some true, some true, none, TsVal.malformed, TsVal.null⟩,
     by simp [c8member], Or.inl rfl⟩⟩

/-! ## Monthly reconciliation engine
(src/src/data/activities.py lines 172-319)

`calculate_monthly_mrr_changes` reads three columns of the activities frame:
`month`, `category` and `mrr_impact_dollars`.  Months are embedded as natural
month indices (year*12 + month); the while loop of lines 192-201 first
normalizes `start_date` to the first day of its month, so the enumerated
months are exactly the indices from `month(start_date)` through
`month(end_date)` inclusive — day components cannot change the set, because
the first of a month m is ≤ `end_date` exactly when m ≤ `month(end_date)`. -/

/-- One activity row as the reconciliation reads it. -/
structure MrrAct where
  month : ℕ
  category : String
  mrr_impact_dollars : ℚ
deriving DecidableEq

/-- The grouped sum `activities_df.groupby(["month", "category"])
["mrr_impact_dollars"].sum()` at one key (src/src/data/activities.py line
207); a key with no matching activities contributes the empty sum 0, matching
the left merge onto the zero baseline (lines 246-263). -/
def groupSum (acts : List MrrAct) (m : ℕ) (c : String) : ℚ :=
  ((acts.filter (fun a => a.month == m && a.category == c)).map
    MrrAct.mrr_impact_dollars).sum

/-- The eight baseline categories in display order
(src/src/data/activities.py lines 229-230 and the `category_order` map of
lines 268-277). -/
def reconCategories : List String :=
  ["Starting MRR", "New members", "Reactivations", "Upgrades", "Downgrades",
   "Cancellations", "Failed payments", "Total MRR"]

/-- The six delta categories summed into the balance
(src/src/data/activities.py line 312). -/
def deltaCategories : List String :=
  ["New members", "Reactivations", "Upgrades", "Downgrades", "Cancellations",
   "Failed payments"]

/-- Sum of a month's six category deltas. -/
def deltaSum (acts : List MrrAct) (m : ℕ) : ℚ :=
  (deltaCategories.map (groupSum acts m)).sum

/-- One output row: month, category, value. -/
structure MBRow where
  month : ℕ
  category : String
  mrr_impact_dollars : ℚ
deriving DecidableEq

/-- Value of one output row after the final loop of lines 290-317: the loop
overwrites every month's "Starting MRR" row with the carried starting balance
and its "Total MRR" row with starting + delta sum; the six delta rows keep
their merged group sums. -/
def reconValue (acts : List MrrAct) (m : ℕ) (starting : ℚ) (c : String) : ℚ :=
  if c = "Starting MRR" then starting
  else if c = "Total MRR" then starting + deltaSum acts m
  else groupSum acts m c

/-- The eight rows of one month, in category display order. -/
def monthRows (acts : List MrrAct) (m : ℕ) (starting : ℚ) : List MBRow :=
  reconCategories.map (fun c => ⟨m, c, reconValue acts m starting c⟩)

/-- The sorted output rows (months ascending, categories in display order),
with the loop's carried starting balance: each month starts where the
previous month's total left off (src/src/data/activities.py lines 294-304). -/
def buildRows (acts : List MrrAct) : List ℕ → ℚ → List MBRow
  | [], _ => []
  | m :: ms, starting =>
      monthRows acts m starting ++
        buildRows acts ms (starting + deltaSum acts m)

/-- The hardcoded first-month starting balance
`initial_mrr = 487.71` (src/src/data/activities.py line 286).  The function
takes no baseline argument; the comment "This can be updated by the calling
function" notwithstanding, `initial_mrr` is a local constant. -/
def initial_mrr : ℚ := 48771 / 100

/-- The enumerated month indices, `month(start_date)` through
`month(end_date)` inclusive (empty when the start month is after the end
month, as in the while loop). -/
def monthsRange (startMonth endMonth : ℕ) : List ℕ :=
  List.range' startMonth (endMonth + 1 - startMonth)

/-- `calculate_monthly_mrr_changes` (src/src/data/activities.py lines
172-319): empty activities return the empty frame; otherwise one row per
enumerated month and baseline category, with "Starting MRR" and "Total MRR"
filled by the running-balance loop. -/
def calculate_monthly_mrr_changes (acts : List MrrAct)
    (startMonth endMonth : ℕ) : List MBRow :=
  if acts.isEmpty then []
  else buildRows acts (monthsRange startMonth endMonth) initial_mrr

/-- Reading one cell of the output: the value of the (month, category) row,
0 when no such row exists. -/
def rowValue (rows : List MBRow) (m : ℕ) (c : String) : ℚ :=
  ((rows.find? (fun r => r.month == m && r.category == c)).map
    MBRow.mrr_impact_dollars).getD 0

/-- The starting balance the loop carries into the k-th enumerated month when
the first month starts at `st`. -/
def stepStart (acts : List MrrAct) : ℕ → ℚ → ℕ → ℚ
  | _, st, 0 => st
  | s, st, k + 1 => stepStart acts (s + 1) (st + deltaSum acts s) k

/-! ## Claims C2 and C3 -/

/-- `List.range'` over a successor length unfolds one month. -/
theorem range'_succ_head (s n : ℕ) :
    List.range' s (n + 1) = s :: List.range' (s + 1) n := rfl

/-- `find?` skips a first block in which it finds nothing. -/
theorem find?_append_none {α : Type} (p : α → Bool) (l1 l2 : List α)
    (h : l1.find? p = none) : (l1 ++ l2).find? p = l2.find? p := by
  induction l1 with
  | nil => simp
  | cons x xs ih =>
    rcases hx : p x with _ | _
    · rw [List.cons_append, List.find?_cons_of_neg _ (by simp [hx])]
      rw [List.find?_cons_of_neg _ (by simp [hx])] at h
      exact ih h
    · rw [List.find?_cons_of_pos _ hx] at h
      cases h

/-- `find?` keeps a hit found in the first block. -/
theorem find?_append_some {α : Type} (p : α → Bool) (l1 l2 : List α) (r : α)
    (h : l1.find? p = some r) : (l1 ++ l2).find? p = some r := by
  induction l1 with
  | nil => simp at h
  | cons x xs ih =>
    rcases hx : p x with _ | _
    · rw [List.find?_cons_of_neg _ (by simp [hx])] at h
      rw [List.cons_append, List.find?_cons_of_neg _ (by simp [hx])]
      exact ih h
    · rw [List.find?_cons_of_pos _ hx] at h
      rw [List.cons_append, List.find?_cons_of_pos _ hx]
      exact h

/-- `find?` over rows built from a category list picks the row of the sought
category. -/
theorem find?_catMap (m : ℕ) (g : String → ℚ) (c0 : String) :
    ∀ l : List String, c0 ∈ l →
      (l.map (fun c => (⟨m, c, g c⟩ : MBRow))).find?
          (fun r => r.month == m && r.category == c0) =
        some ⟨m, c0, g c0⟩ := by
  intro l hmem
  induction l with
  | nil => cases hmem
  | cons c cs ih =>
    by_cases hc : c = c0
    · subst hc
      simp only [List.map_cons]
      rw [List.find?_cons_of_pos _ (by simp)]
    · simp only [List.map_cons]
      rw [List.find?_cons_of_neg _ (by simp [hc])]
      rcases List.mem_cons.mp hmem with h | h
      · exact absurd h.symm hc
      · exact ih h

/-- A month's row block yields the row of any baseline category. -/
theorem find?_monthRows_self (acts : List MrrAct) (s : ℕ) (st : ℚ)
    (c0 : String) (hc : c0 ∈ reconCategories) :
    (monthRows acts s st).find?
        (fun r => r.month == s && r.category == c0) =
      some ⟨s, c0, reconValue acts s st c0⟩ :=
  find?_catMap s _ c0 reconCategories hc

/-- A month's row block holds nothing for a different month. -/
theorem find?_monthRows_ne (acts : List MrrAct) (m m' : ℕ) (st : ℚ)
    (c0 : String) (h : m' ≠ m) :
    (monthRows acts m st).find?
      (fun r => r.month == m' && r.category == c0) = none := by
  apply List.find?_eq_none.mpr
  intro r hr
  obtain ⟨c, _, rfl⟩ := List.mem_map.mp hr
  simp only [Bool.and_eq_true, beq_iff_eq, not_and]
  intro hm
  exact absurd hm.symm h

/-- Cell lookup in the built output: the k-th enumerated month's row of any
baseline category carries `reconValue` at the carried starting balance. -/
theorem rowValue_buildRows (acts : List MrrAct) :
    ∀ (n s : ℕ) (st : ℚ) (k : ℕ) (c0 : String), k < n → c0 ∈ reconCategories →
      rowValue (buildRows acts (List.range' s n) st) (s + k) c0 =
        reconValue acts (s + k) (stepStart acts s st k) c0 := by
  intro n
  induction n with
  | zero =>
    intro s st k c0 hk
    exact absurd hk (Nat.not_lt_zero k)
  | succ n ih =>
    intro s st k c0 hk hc
    rw [range'_succ_head]
    cases k with
    | zero =>
      simp only [buildRows, Nat.add_zero, rowValue]
      rw [find?_append_some _ _ _ _ (find?_monthRows_self acts s st c0 hc)]
      rfl
    | succ k =>
      simp only [buildRows, rowValue]
      rw [find?_append_none _ _ _
        (find?_monthRows_ne acts s (s + (k + 1)) st c0 (by omega))]
      have harith : s + (k + 1) = (s + 1) + k := by omega
      rw [harith]
      exact ih (s + 1) (st + deltaSum acts s) k c0 (by omega) hc

/-- Unrolling the carried starting balance by one month: the k+1-st month
starts at the k-th month's start plus the k-th month's delta sum, i.e. at the
k-th month's ending balance. -/
theorem stepStart_succ (acts : List MrrAct) :
    ∀ (k s : ℕ) (st : ℚ),
      stepStart acts s st (k + 1) =
        stepStart acts s st k + deltaSum acts (s + k) := by
  intro k
  induction k with
  | zero => intro s st; simp [stepStart]
  | succ k ih =>
    intro s st
    show stepStart acts (s + 1) (st + deltaSum acts s) (k + 1) = _
    rw [ih (s + 1)]
    have harith : s + 1 + k = s + (k + 1) := by omega
    rw [harith]
    rfl

/-- A delta-category row carries its merged group sum. -/
theorem reconValue_delta (acts : List MrrAct) (m : ℕ) (st : ℚ) (c : String)
    (hc : c ∈ deltaCategories) : reconValue acts m st c = groupSum acts m c := by
  fin_cases hc <;> simp [reconValue]

/-- The six delta categories are baseline categories. -/
theorem delta_mem_recon (c : String) (hc : c ∈ deltaCategories) :
    c ∈ reconCategories := by
  fin_cases hc <;> simp [reconCategories]

/-- The "Starting MRR" row carries the starting balance. -/
theorem reconValue_starting (acts : List MrrAct) (m : ℕ) (st : ℚ) :
    reconValue acts m st "Starting MRR" = st := by
  simp [reconValue]

/-- The "Total MRR" row carries starting balance plus delta sum. -/
theorem reconValue_total (acts : List MrrAct) (m : ℕ) (st : ℚ) :
    reconValue acts m st "Total MRR" = st + deltaSum acts m := by
  simp [reconValue]

/-- C2: for every non-empty activity table and every date range, in the
output of `calculate_monthly_mrr_changes` each enumerated month's "Total MRR"
row equals its "Starting MRR" row plus the sum of its six delta rows (New
members, Reactivations, Upgrades, Downgrades, Cancellations, Failed
payments), and each pair of consecutive output months m, m+1 satisfies
starting_balance(m+1) = ending_balance(m). -/
theorem c2_reconciliation (acts : List MrrAct) (startMonth endMonth : ℕ)
    (h : acts ≠ []) :
    (∀ m ∈ monthsRange startMonth endMonth,
      rowValue (calculate_monthly_mrr_changes acts startMonth endMonth) m
          "Total MRR" =
        rowValue (calculate_monthly_mrr_changes acts startMonth endMonth) m
          "Starting MRR" +
        (deltaCategories.map
          (rowValue (calculate_monthly_mrr_changes acts startMonth endMonth)
            m)).sum) ∧
    (∀ m, m ∈ monthsRange startMonth endMonth →
      m + 1 ∈ monthsRange startMonth endMonth →
      rowValue (calculate_monthly_mrr_changes acts startMonth endMonth) (m + 1)
          "Starting MRR" =
        rowValue (calculate_monthly_mrr_changes acts startMonth endMonth) m
          "Total MRR") := by
  have hne : acts.isEmpty = false := by
    simpa [List.isEmpty_iff] using h
  have hout : calculate_monthly_mrr_changes acts startMonth endMonth =
      buildRows acts (List.range' startMonth (endMonth + 1 - startMonth))
        initial_mrr := by
    simp [calculate_monthly_mrr_changes, hne, monthsRange]
  constructor
  · intro m hmem
    rw [monthsRange, List.mem_range'_1] at hmem
    obtain ⟨k, hk, rfl⟩ :
        ∃ k, k < endMonth + 1 - startMonth ∧ m = startMonth + k :=
      ⟨m - startMonth, by omega, by omega⟩
    rw [hout]
    rw [rowValue_buildRows acts _ _ _ k _ hk (by simp [reconCategories])]
    rw [rowValue_buildRows acts _ _ _ k _ hk (by simp [reconCategories])]
    rw [reconValue_starting, reconValue_total]
    have hmap : deltaCategories.map
        (rowValue (buildRows acts
          (List.range' startMonth (endMonth + 1 - startMonth)) initial_mrr)
          (startMonth + k)) =
        deltaCategories.map (groupSum acts (startMonth + k)) := by
      apply List.map_congr_left
      intro c hcd
      rw [rowValue_buildRows acts _ _ _ k _ hk (delta_mem_recon c hcd),
        reconValue_delta _ _ _ _ hcd]
    rw [hmap]
    rfl
  · intro m hmem hmem1
    rw [monthsRange, List.mem_range'_1] at hmem hmem1
    obtain ⟨k, hk, rfl⟩ :
        ∃ k, k + 1 < endMonth + 1 - startMonth ∧ m = startMonth + k :=
      ⟨m - startMonth, by omega, by omega⟩
    rw [hout]
    have h1 : startMonth + k + 1 = startMonth + (k + 1) := by omega
    rw [h1]
    rw [rowValue_buildRows acts _ _ _ (k + 1) _ hk (by simp [reconCategories])]
    rw [rowValue_buildRows acts _ _ _ k _ (by omega) (by simp [reconCategories])]
    rw [reconValue_starting, reconValue_total]
    exact stepStart_succ acts k startMonth initial_mrr

/-- A one-activity table exercising the reconciliation. -/
def c2acts : List MrrAct := [⟨0, "New members", 5⟩]

/-- Witness for `c2_reconciliation` on the table `c2acts` over months 0-1. -/
theorem c2_reconciliation_witness :
    c2acts ≠ [] ∧
    ((∀ m ∈ monthsRange 0 1,
      rowValue (calculate_monthly_mrr_changes c2acts 0 1) m "Total MRR" =
        rowValue (calculate_monthly_mrr_changes c2acts 0 1) m "Starting MRR" +
        (deltaCategories.map
          (rowValue (calculate_monthly_mrr_changes c2acts 0 1) m)).sum) ∧
    (∀ m, m ∈ monthsRange 0 1 → m + 1 ∈ monthsRange 0 1 →
      rowValue (calculate_monthly_mrr_changes c2acts 0 1) (m + 1)
          "Starting MRR" =
        rowValue (calculate_monthly_mrr_changes c2acts 0 1) m "Total MRR")) :=
  ⟨by simp [c2acts], c2_reconciliation c2acts 0 1 (by simp [c2acts])⟩

/-- A concrete activity table containing no trace of the value 487.71. -/
def c3acts : List MrrAct := [⟨3, "Cancellations", -7⟩]

/-- C3 counterexample: `calculate_monthly_mrr_changes` takes no baseline
argument at all — its Python signature is `(activities_df, start_date,
end_date=None)` — and on an input that supplies no such value anywhere the
first month's "Starting MRR" is the constant 487.71 hardcoded inside the
function, not a caller-supplied baseline. -/
theorem c3_counterexample :
    rowValue (calculate_monthly_mrr_changes c3acts 3 4) 3 "Starting MRR" =
      48771 / 100 ∧ (48771 / 100 : ℚ) ≠ 0 := by
  constructor
  · have hout : calculate_monthly_mrr_changes c3acts 3 4 =
        buildRows c3acts (List.range' 3 2) initial_mrr := by
      simp [calculate_monthly_mrr_changes, c3acts, monthsRange]
    rw [hout]
    have h0 := rowValue_buildRows c3acts 2 3 initial_mrr 0 "Starting MRR"
      (by omega) (by simp [reconCategories])
    simpa [reconValue_starting, stepStart, initial_mrr] using h0
  · norm_num

/-- C3 amended: for every non-empty activity table and every
startMonth ≤ endMonth, the first month's starting balance in the output of
`calculate_monthly_mrr_changes` equals the constant 487.71 fixed inside the
engine (the legacy `data_processing.py` copy fixes 0 instead); the caller has
no way to supply it, since the function has no baseline parameter. -/
theorem c3_amended (acts : List MrrAct) (startMonth endMonth : ℕ)
    (h : acts ≠ []) (hle : startMonth ≤ endMonth) :
    rowValue (calculate_monthly_mrr_changes acts startMonth endMonth)
      startMonth "Starting MRR" = 48771 / 100 := by
  have hne : acts.isEmpty = false := by
    simpa [List.isEmpty_iff] using h
  have hout : calculate_monthly_mrr_changes acts startMonth endMonth =
      buildRows acts (List.range' startMonth (endMonth + 1 - startMonth))
        initial_mrr := by
    simp [calculate_monthly_mrr_changes, hne, monthsRange]
  rw [hout]
  have h0 := rowValue_buildRows acts (endMonth + 1 - startMonth) startMonth
    initial_mrr 0 "Starting MRR" (by omega) (by simp [reconCategories])
  simpa [reconValue_starting, stepStart, initial_mrr] using h0

/-- A one-activity table for the C3 witness. -/
def c3wacts : List MrrAct := [⟨5, "Upgrades", 2⟩]

/-- Witness for `c3_amended` on the table `c3wacts` over months 5-6. -/
theorem c3_amended_witness :
    c3wacts ≠ [] ∧ (5 : ℕ) ≤ 6 ∧
    rowValue (calculate_monthly_mrr_changes c3wacts 5 6) 5 "Starting MRR" =
      48771 / 100 :=
  ⟨by simp [c3wacts], by omega,
   c3_amended c3wacts 5 6 (by simp [c3wacts]) (by omega)⟩

/-! ## Backward reconstruction of historical active-member counts
(src/src/visualizations/member_growth.py lines 234-294)

The loop walks `all_months_sorted` in reverse chronological order.  The first
iteration keeps the current active count; every later iteration updates the
running total with the numbers of the month being visited —
`running_total - new(this month) + churned(this month)` (lines 263-275) — and
finally the collected rows are reversed back to chronological order (line
294).  One `(month, Total Active)` pair is embedded per month; `renewed` is
read by the loop but does not enter the total.  Every month of
`all_months_sorted` has a row in `monthly_changes`, so the loop's
`month_data.empty` guard never skips. -/

/-- One month's row of `monthly_changes`: counts of new, churned and renewed
subscriptions (months are indices, ascending in the input). -/
structure MonthChange where
  month : ℕ
  new : ℤ
  churned : ℤ
  renewed : ℤ
deriving DecidableEq

/-- The loop body for the months after the most recent one: subtract the
visited month's new count, add its churned count, and record the updated
running total (src/src/visualizations/member_growth.py lines 271-283). -/
def backTail (running : ℤ) : List MonthChange → List (ℕ × ℤ)
  | [] => []
  | mc :: rest =>
      (mc.month, running - mc.new + mc.churned) ::
        backTail (running - mc.new + mc.churned) rest

/-- The reverse-chronological walk: the first (most recent) month keeps the
current count, the rest follow `backTail`
(src/src/visualizations/member_growth.py lines 254-291). -/
def memberTotalsDesc (current : ℤ) : List MonthChange → List (ℕ × ℤ)
  | [] => []
  | mc :: rest => (mc.month, current) :: backTail current rest

/-- The `(Month, Total Active)` series of the total-membership chart: walk the
ascending months in reverse, then reverse the collected rows back to
chronological order (src/src/visualizations/member_growth.py lines 253-294). -/
def show_member_growth_totals (changes : List MonthChange) (current : ℤ) :
    List (ℕ × ℤ) :=
  (memberTotalsDesc current changes.reverse).reverse

/-- Two months of change data: month 0 with (new 5, churned 1), month 1 with
(new 2, churned 3), current total 10. -/
def c4changes : List MonthChange := [⟨0, 5, 1, 0⟩, ⟨1, 2, 3, 0⟩]

/-- C4 counterexample: with `c4changes` and current total 10, the code
reconstructs total(0) = 10 − new(0) + churned(0) = 10 − 5 + 1 = 6, using
month 0's own counts, whereas the claimed recurrence total(0) = total(1) −
new(1) + churned(1) = 10 − 2 + 3 = 11 predicts a different value: the step
backwards removes the visited month's new subscriptions, not the following
month's. -/
theorem c4_counterexample :
    show_member_growth_totals c4changes 10 = [(0, 6), (1, 10)] ∧
    (6 : ℤ) ≠ 10 - 2 + 3 := by decide

/-- `backTail` emits one row per input month. -/
theorem backTail_length (l : List MonthChange) :
    ∀ running : ℤ, (backTail running l).length = l.length := by
  induction l with
  | nil => intro running; rfl
  | cons mc rest ih => intro running; simp [backTail, ih]

/-- The walk emits one row per input month. -/
theorem memberTotalsDesc_length (current : ℤ) (l : List MonthChange) :
    (memberTotalsDesc current l).length = l.length := by
  cases l with
  | nil => rfl
  | cons mc rest => simp [memberTotalsDesc, backTail_length]

/-- `backTail` keeps months in position. -/
theorem backTail_month (l : List MonthChange) :
    ∀ (running : ℤ) (j : ℕ) (hj : j < (backTail running l).length)
      (hc : j < l.length),
      ((backTail running l).get ⟨j, hj⟩).1 = (l.get ⟨j, hc⟩).month := by
  induction l with
  | nil => intro running j hj hc; simp [backTail] at hj
  | cons mc rest ih =>
    intro running j hj hc
    cases j with
    | zero => rfl
    | succ j =>
      exact ih (running - mc.new + mc.churned) j
        (by simpa [backTail, backTail_length] using hj)
        (by simp only [List.length_cons] at hc; omega)

/-- Within `backTail`, each total is the previous total minus the visited
month's new count plus its churned count. -/
theorem backTail_succ_value (l : List MonthChange) :
    ∀ (running : ℤ) (j : ℕ)
      (hj1 : j + 1 < (backTail running l).length)
      (hj : j < (backTail running l).length)
      (hc : j + 1 < l.length),
      ((backTail running l).get ⟨j + 1, hj1⟩).2 =
        ((backTail running l).get ⟨j, hj⟩).2 -
          (l.get ⟨j + 1, hc⟩).new + (l.get ⟨j + 1, hc⟩).churned := by
  induction l with
  | nil => intro running j hj1 hj hc; simp [backTail] at hj1
  | cons mc rest ih =>
    intro running j hj1 hj hc
    cases j with
    | zero =>
      cases rest with
      | nil => simp [backTail] at hj1
      | cons mc2 rest2 => rfl
    | succ j =>
      exact ih (running - mc.new + mc.churned) j
        (by simpa [backTail, backTail_length] using hj1)
        (by simpa [backTail, backTail_length] using hj)
        (by simp only [List.length_cons] at hc; omega)

/-- The most recent month keeps the current count. -/
theorem memberTotalsDesc_zero (current : ℤ) (l : List MonthChange)
    (h0 : 0 < (memberTotalsDesc current l).length) :
    ((memberTotalsDesc current l).get ⟨0, h0⟩).2 = current := by
  cases l with
  | nil => simp [memberTotalsDesc] at h0
  | cons mc rest => rfl

/-- The walk keeps months in position. -/
theorem memberTotalsDesc_month (current : ℤ) (l : List MonthChange) :
    ∀ (j : ℕ) (hj : j < (memberTotalsDesc current l).length)
      (hc : j < l.length),
      ((memberTotalsDesc current l).get ⟨j, hj⟩).1 = (l.get ⟨j, hc⟩).month := by
  intro j hj hc
  cases l with
  | nil => simp [memberTotalsDesc] at hj
  | cons mc rest =>
    cases j with
    | zero => rfl
    | succ j =>
      exact backTail_month rest current j
        (by simpa [memberTotalsDesc, backTail_length] using hj)
        (by simp only [List.length_cons] at hc; omega)

/-- Within the walk, each total after the first is the previous total minus
the visited month's new count plus its churned count. -/
theorem memberTotalsDesc_succ_value (current : ℤ) (l : List MonthChange) :
    ∀ (j : ℕ) (hj1 : j + 1 < (memberTotalsDesc current l).length)
      (hj : j < (memberTotalsDesc current l).length)
      (hc : j + 1 < l.length),
      ((memberTotalsDesc current l).get ⟨j + 1, hj1⟩).2 =
        ((memberTotalsDesc current l).get ⟨j, hj⟩).2 -
          (l.get ⟨j + 1, hc⟩).new + (l.get ⟨j + 1, hc⟩).churned := by
  intro j hj1 hj hc
  cases l with
  | nil => simp [memberTotalsDesc] at hj1
  | cons mc rest =>
    cases j with
    | zero =>
      cases rest with
      | nil => simp [memberTotalsDesc, backTail] at hj1
      | cons mc2 rest2 => rfl
    | succ j =>
      exact backTail_succ_value rest current j
        (by simpa [memberTotalsDesc, backTail_length] using hj1)
        (by simpa [memberTotalsDesc, backTail_length] using hj)
        (by simp only [List.length_cons] at hc; omega)

/-- C4 amended: listing the output most-recent-first (its reverse, which is
exactly the reverse-chronological walk), the first total equals the current
active count, months are preserved in order, and each later entry's total is
the previous entry's total minus the visited month's own new count plus its
own churned count — `total(month) = total(month+1) − new(month) +
churned(month)`, one month off from the claimed recurrence. -/
theorem c4_amended (changes : List MonthChange) (current : ℤ) :
    (show_member_growth_totals changes current).reverse =
      memberTotalsDesc current changes.reverse ∧
    (∀ h0 : 0 < (memberTotalsDesc current changes.reverse).length,
      ((memberTotalsDesc current changes.reverse).get ⟨0, h0⟩).2 = current) ∧
    (∀ (j : ℕ)
        (hj1 : j + 1 < (memberTotalsDesc current changes.reverse).length)
        (hj : j < (memberTotalsDesc current changes.reverse).length)
        (hc : j + 1 < changes.reverse.length),
      ((memberTotalsDesc current changes.reverse).get ⟨j + 1, hj1⟩).2 =
        ((memberTotalsDesc current changes.reverse).get ⟨j, hj⟩).2 -
          (changes.reverse.get ⟨j + 1, hc⟩).new +
          (changes.reverse.get ⟨j + 1, hc⟩).churned) ∧
    (∀ (j : ℕ) (hj : j < (memberTotalsDesc current changes.reverse).length)
        (hc : j < changes.reverse.length),
      ((memberTotalsDesc current changes.reverse).get ⟨j, hj⟩).1 =
        (changes.reverse.get ⟨j, hc⟩).month) :=
  ⟨by simp [show_member_growth_totals],
   memberTotalsDesc_zero current changes.reverse,
   memberTotalsDesc_succ_value current changes.reverse,
   memberTotalsDesc_month current changes.reverse⟩

/-- Witness for `c4_amended` on `c4changes` with current total 10,
discharging the inner index hypotheses at j = 0. -/
theorem c4_amended_witness :
    ((show_member_growth_totals c4changes 10).reverse =
      memberTotalsDesc 10 c4changes.reverse) ∧
    ((memberTotalsDesc 10 c4changes.reverse).get ⟨0, by decide⟩).2 = 10 ∧
    ((memberTotalsDesc 10 c4changes.reverse).get ⟨1, by decide⟩).2 =
      ((memberTotalsDesc 10 c4changes.reverse).get ⟨0, by decide⟩).2 -
        (c4changes.reverse.get ⟨1, by decide⟩).new +
        (c4changes.reverse.get ⟨1, by decide⟩).churned :=
  ⟨(c4_amended c4changes 10).1,
   (c4_amended c4changes 10).2.1 (by decide),
   (c4_amended c4changes 10).2.2.1 0 (by decide) (by decide) (by decide)⟩

end MadeMembers
